import Mathlib

/-!
# Verification of the IP 404 tracker (404BlockerDemo)

Shallow embedding of the Go tracker from `404blocker.go` (and the second
variant of the same file that adds `ExtendBan` and the gate path of
`Middleware`).

Modelling conventions:
* Go `time.Time` and `time.Duration` are both modelled as `Int`
  (nanoseconds since an epoch); `a.After(b)` is `b < a`, `a.Before(b)` is
  `a < b`, `a.Add(d)` is `a + d`.
* Go maps are modelled as association lists `List (String × α)` with
  unique-key insert (`mapInsert`) and `List.lookup`; a Go map read that
  yields the zero value on a missing key is `lookupD` with the zero value
  as default.
* The `sync.RWMutex` is dropped: every operation is modelled as a pure
  function on the whole tracker state, which is exactly the sequential
  behaviour the lock enforces.
* `time.Now()` inside an operation becomes an explicit `now : Int`
  argument of the operation.
-/

/-- Identifiers (client IP addresses) are opaque strings. -/
abbrev Ident := String

/-- Overwrite-or-append insert for an association list, mirroring a Go map
assignment `m[k] = v`. -/
def mapInsert (k : Ident) (v : α) : List (Ident × α) → List (Ident × α)
  | [] => [(k, v)]
  | (k', v') :: rest =>
    if k' = k then (k, v) :: rest else (k', v') :: mapInsert k v rest

/-- Go map read with zero value: `m[k]` when `k` may be absent. -/
def lookupD (m : List (Ident × α)) (k : Ident) (d : α) : α :=
  (m.lookup k).getD d

/-- The `IP404Tracker` struct: per-IP 404 timestamps, ban-expiry map,
whitelist, banned-request tally, and the three configuration values. -/
structure Tracker where
  counts : List (Ident × List Int)
  bannedUntil : List (Ident × Int)
  whitelist : List Ident
  bannedRequest : List (Ident × Nat)
  threshold : Int
  window : Int
  banDuration : Int
deriving Repr, DecidableEq

/-- The hardcoded whitelist seeded by `initializeWhitelist`. -/
def hardcodedWhitelist : List Ident := ["1.1.1.1"]

/-- `NewIP404Tracker`: builds the tracker with empty maps, stores the three
configuration values, and seeds the hardcoded whitelist. (The two
background goroutines it also starts are modelled separately: `cleanup`
below is the body of one tick of the cleanup loop.) -/
def NewIP404Tracker (threshold window banDuration : Int) : Tracker :=
  { counts := []
    bannedUntil := []
    whitelist := hardcodedWhitelist
    bannedRequest := []
    threshold := threshold
    window := window
    banDuration := banDuration }

/-- `IsWhitelisted`: reads `t.whitelist[ip]` (zero value `false`). -/
def IsWhitelisted (t : Tracker) (ip : Ident) : Bool :=
  t.whitelist.contains ip

/-- The raw banned test used inside `Record404` and `IsBanned`:
`banTime, exists := t.bannedUntil[ip]; exists && banTime.After(now)`. -/
def isBannedRaw (t : Tracker) (ip : Ident) (now : Int) : Bool :=
  match t.bannedUntil.lookup ip with
  | some banTime => now < banTime
  | none => false

/-- `Record404`: skip whitelisted IPs; return `true` if already banned;
otherwise keep only timestamps strictly after `now - window`, append
`now`, store the result, and ban (expiry `now + banDuration`) exactly when
the stored count strictly exceeds the threshold. Returns the updated
tracker and the `bool` the Go function returns. -/
def Record404 (t : Tracker) (ip : Ident) (now : Int) : Tracker × Bool :=
  if IsWhitelisted t ip then
    (t, false)
  else if isBannedRaw t ip now then
    (t, true)
  else
    let windowStart := now - t.window
    let timestamps := lookupD t.counts ip []
    let recentTimestamps :=
      timestamps.filter (fun ts => decide (windowStart < ts)) ++ [now]
    let t' := { t with counts := mapInsert ip recentTimestamps t.counts }
    if t.threshold < (recentTimestamps.length : Int) then
      ({ t' with
          bannedUntil := mapInsert ip (now + t.banDuration) t'.bannedUntil },
        true)
    else
      (t', false)

/-- `IsBanned`: whitelisted IPs are never banned; otherwise banned iff a
record exists whose expiry is strictly after `now`. -/
def IsBanned (t : Tracker) (ip : Ident) (now : Int) : Bool :=
  if IsWhitelisted t ip then false
  else isBannedRaw t ip now

/-- `IsBanned` as a state transformer: the Go method only takes a read
lock and reads `whitelist` and `bannedUntil`; it performs no write, so the
state it passes on is the state it received. -/
def IsBannedCall (t : Tracker) (ip : Ident) (now : Int) : Tracker × Bool :=
  (t, IsBanned t ip now)

/-- `GetBannedIPs`: the entries of `bannedUntil` whose expiry is strictly
after `now`, as a map from IP to expiry. -/
def GetBannedIPs (t : Tracker) (now : Int) : List (Ident × Int) :=
  t.bannedUntil.filter (fun p => decide (now < p.2))

/-- `cleanup` (one tick of `cleanupLoop`): for every IP keep only
timestamps strictly after `now - window`, delete the entry when nothing is
left; delete every ban whose expiry is before `now`. -/
def cleanup (t : Tracker) (now : Int) : Tracker :=
  let windowCutoff := now - t.window
  let counts' :=
    (t.counts.map
        (fun p => (p.1, p.2.filter (fun ts => decide (windowCutoff < ts))))).filter
      (fun p => !p.2.isEmpty)
  let bans' := t.bannedUntil.filter (fun p => !decide (p.2 < now))
  { t with counts := counts', bannedUntil := bans' }

/-- `ExtendBan` (second variant of the file): unless whitelisted, set the
ban expiry to `time.Now().Add(t.banDuration)` unconditionally. -/
def ExtendBan (t : Tracker) (ip : Ident) (now : Int) : Tracker :=
  if IsWhitelisted t ip then t
  else { t with bannedUntil := mapInsert ip (now + t.banDuration) t.bannedUntil }

/-- `BannedRequestCounter`: `t.bannedRequest[clientIP]++`. -/
def BannedRequestCounter (t : Tracker) (ip : Ident) : Tracker :=
  { t with
      bannedRequest :=
        mapInsert ip (lookupD t.bannedRequest ip 0 + 1) t.bannedRequest }

/-- Outcome of the gate check in `Middleware`. -/
inductive GateOutcome where
  | BANNED
  | ALLOWED
deriving Repr, DecidableEq

/-- The gate path of `Middleware` (second variant): if `IsBanned`, call
`ExtendBan`, then `BannedRequestCounter`, and abort with a generic 404
(`BANNED`); otherwise let the request through (`ALLOWED`). -/
def checkAndGate (t : Tracker) (ip : Ident) (now : Int) : Tracker × GateOutcome :=
  if IsBanned t ip now then
    (BannedRequestCounter (ExtendBan t ip now) ip, GateOutcome.BANNED)
  else
    (t, GateOutcome.ALLOWED)

/-! ## Helper lemmas about the association-list map operations -/

theorem lookup_mapInsert_self (k : Ident) (v : α) (m : List (Ident × α)) :
    (mapInsert k v m).lookup k = some v := by
  induction m with
  | nil => simp [mapInsert, List.lookup]
  | cons p rest ih =>
    obtain ⟨k', v'⟩ := p
    by_cases h : k' = k
    · simp [mapInsert, h, List.lookup]
    · have hk : (k == k') = false := by simp [Ne.symm h]
      simp [mapInsert, h, List.lookup, ih, hk]

theorem lookupD_mapInsert_self (k : Ident) (v : α) (m : List (Ident × α)) (d : α) :
    lookupD (mapInsert k v m) k d = v := by
  simp [lookupD, lookup_mapInsert_self]

/-! ## Concrete states used by witnesses -/

/-- A small concrete tracker state: one tracked IP `a` with a single
timestamp, one banned IP `b` (expiry 100), one whitelisted IP `w`,
threshold 1, window 10, ban duration 50. -/
def tW : Tracker :=
  { counts := [("a", [5])]
    bannedUntil := [("b", 100)]
    whitelist := ["w"]
    bannedRequest := []
    threshold := 1
    window := 10
    banDuration := 50 }

/-! ## C1: threshold boundary of Record404 -/

/-- C1: for a non-whitelisted, not-currently-banned identifier,
`Record404` returns `true` exactly when the in-window offense count after
appending the new event (the surviving old timestamps plus one) strictly
exceeds the threshold, in which case it writes the ban record
`now + banDuration`; at or below the threshold it returns `false` and
writes no ban, so `threshold` in-window offenses never ban and the
`(threshold+1)`-th does. -/
theorem record404_threshold_boundary (t : Tracker) (ip : Ident) (now : Int)
    (hw : IsWhitelisted t ip = false) (hb : isBannedRaw t ip now = false) :
    ((Record404 t ip now).2 = true ↔
      t.threshold <
        (((lookupD t.counts ip []).filter
            (fun ts => decide (now - t.window < ts))).length : Int) + 1) ∧
    (t.threshold <
        (((lookupD t.counts ip []).filter
            (fun ts => decide (now - t.window < ts))).length : Int) + 1 →
      (Record404 t ip now).1.bannedUntil.lookup ip = some (now + t.banDuration)) ∧
    ((((lookupD t.counts ip []).filter
          (fun ts => decide (now - t.window < ts))).length : Int) + 1 ≤ t.threshold →
      (Record404 t ip now).1.bannedUntil = t.bannedUntil ∧
      (Record404 t ip now).2 = false) := by
  simp only [Record404, hw, hb, Bool.false_eq_true, if_false,
    List.length_append, List.length_singleton, Nat.cast_add, Nat.cast_one]
  by_cases hth :
      t.threshold <
        (((lookupD t.counts ip []).filter
            (fun ts => decide (now - t.window < ts))).length : Int) + 1
  · simp [hth, lookup_mapInsert_self]
  · simp [hth]

/-- Witness for C1 at the concrete state `tW`, identifier `a`, `now = 6`:
the old timestamp 5 survives the window filter, the count becomes 2 > 1,
and the call bans `a` until 56. -/
theorem record404_threshold_boundary_witness :
    IsWhitelisted tW "a" = false ∧ isBannedRaw tW "a" 6 = false ∧
    (((Record404 tW "a" 6).2 = true ↔
      tW.threshold <
        (((lookupD tW.counts "a" []).filter
            (fun ts => decide (6 - tW.window < ts))).length : Int) + 1) ∧
    (tW.threshold <
        (((lookupD tW.counts "a" []).filter
            (fun ts => decide (6 - tW.window < ts))).length : Int) + 1 →
      (Record404 tW "a" 6).1.bannedUntil.lookup "a" = some (6 + tW.banDuration)) ∧
    ((((lookupD tW.counts "a" []).filter
          (fun ts => decide (6 - tW.window < ts))).length : Int) + 1 ≤ tW.threshold →
      (Record404 tW "a" 6).1.bannedUntil = tW.bannedUntil ∧
      (Record404 tW "a" 6).2 = false)) :=
  ⟨by decide, by decide,
    record404_threshold_boundary tW "a" 6 (by decide) (by decide)⟩

/-! ## C2: gate path on a banned identifier -/

/-- C2: when the gate check finds the identifier banned, the gate path
returns the BANNED outcome, resets the ban expiry to `now + banDuration`
(the rolling extension, identical to a fresh ban), and increments that
identifier's banned-request tally by exactly one. -/
theorem checkAndGate_banned_path (t : Tracker) (ip : Ident) (now : Int)
    (hb : IsBanned t ip now = true) :
    (checkAndGate t ip now).2 = GateOutcome.BANNED ∧
    (checkAndGate t ip now).1.bannedUntil.lookup ip = some (now + t.banDuration) ∧
    lookupD (checkAndGate t ip now).1.bannedRequest ip 0 =
      lookupD t.bannedRequest ip 0 + 1 := by
  have hw : IsWhitelisted t ip = false := by
    by_contra h
    simp only [Bool.not_eq_false] at h
    simp [IsBanned, h] at hb
  refine ⟨?_, ?_, ?_⟩ <;>
    simp [checkAndGate, hb, ExtendBan, hw, BannedRequestCounter,
      lookup_mapInsert_self, lookupD_mapInsert_self]

/-- Witness for C2 at `tW`, identifier `b`, `now = 50`: `b` is banned
(expiry 100 > 50); the gate returns BANNED, resets the expiry to 100
(= 50 + 50), and bumps the tally from 0 to 1. -/
theorem checkAndGate_banned_path_witness :
    IsBanned tW "b" 50 = true ∧
    ((checkAndGate tW "b" 50).2 = GateOutcome.BANNED ∧
    (checkAndGate tW "b" 50).1.bannedUntil.lookup "b" = some (50 + tW.banDuration) ∧
    lookupD (checkAndGate tW "b" 50).1.bannedRequest "b" 0 =
      lookupD tW.bannedRequest "b" 0 + 1) :=
  ⟨by decide, checkAndGate_banned_path tW "b" 50 (by decide)⟩

/-! ## C3: window pruning inside Record404 -/

/-- C3: for a non-whitelisted, not-currently-banned identifier (and a
positive window), `Record404` stores exactly the old timestamps strictly
inside the trailing window followed by `now`; every old timestamp that is
`window` old or older (including exactly `now - window`) is dropped; an
identifier with no prior entries ends with the single entry `[now]`. -/
theorem record404_window_pruning (t : Tracker) (ip : Ident) (now : Int)
    (hw : IsWhitelisted t ip = false) (hb : isBannedRaw t ip now = false)
    (hwin : 0 < t.window) :
    lookupD (Record404 t ip now).1.counts ip [] =
      (lookupD t.counts ip []).filter (fun ts => decide (now - t.window < ts))
        ++ [now] ∧
    (∀ ts ∈ lookupD t.counts ip [], ts ≤ now - t.window →
      ts ∉ lookupD (Record404 t ip now).1.counts ip []) ∧
    (lookupD t.counts ip [] = [] →
      lookupD (Record404 t ip now).1.counts ip [] = [now]) := by
  have hcounts :
      lookupD (Record404 t ip now).1.counts ip [] =
        (lookupD t.counts ip []).filter (fun ts => decide (now - t.window < ts))
          ++ [now] := by
    simp only [Record404, hw, hb, Bool.false_eq_true, if_false]
    split <;> simp [lookupD_mapInsert_self]
  refine ⟨hcounts, ?_, ?_⟩
  · intro ts hts hold
    rw [hcounts]
    intro hmem
    rcases List.mem_append.mp hmem with h1 | h1
    · have := (List.mem_filter.mp h1).2
      simp only [decide_eq_true_eq] at this
      omega
    · have : ts = now := by simpa using h1
      omega
  · intro hempty
    rw [hcounts, hempty]
    simp

/-- Witness for C3 at `tW`, identifier `a`, `now = 20`: the stored
timestamp 5 is ≤ 20 − 10 and is dropped; the new window is `[20]`. -/
theorem record404_window_pruning_witness :
    IsWhitelisted tW "a" = false ∧ isBannedRaw tW "a" 20 = false ∧ 0 < tW.window ∧
    (lookupD (Record404 tW "a" 20).1.counts "a" [] =
      (lookupD tW.counts "a" []).filter (fun ts => decide (20 - tW.window < ts))
        ++ [20] ∧
    (∀ ts ∈ lookupD tW.counts "a" [], ts ≤ 20 - tW.window →
      ts ∉ lookupD (Record404 tW "a" 20).1.counts "a" []) ∧
    (lookupD tW.counts "a" [] = [] →
      lookupD (Record404 tW "a" 20).1.counts "a" [] = [20])) :=
  ⟨by decide, by decide, by decide,
    record404_window_pruning tW "a" 20 (by decide) (by decide) (by decide)⟩

/-! ## C4: banned predicate and active-ban listing -/

/-- C4: for a non-whitelisted identifier, `IsBanned` is `true` exactly
when a ban record exists whose expiry is strictly after `now` (an expiry
equal to `now` does not count); and `GetBannedIPs` at `now` contains
exactly the `(ip, expiry)` records of `bannedUntil` whose expiry is
strictly after `now`. -/
theorem isBanned_getBannedIPs_semantics (t : Tracker) (ip : Ident) (now : Int)
    (hw : IsWhitelisted t ip = false) :
    (IsBanned t ip now = true ↔
      ∃ e, t.bannedUntil.lookup ip = some e ∧ now < e) ∧
    (∀ p : Ident × Int,
      p ∈ GetBannedIPs t now ↔ p ∈ t.bannedUntil ∧ now < p.2) := by
  constructor
  · simp only [IsBanned, hw, Bool.false_eq_true, if_false, isBannedRaw]
    cases h : t.bannedUntil.lookup ip <;> simp [h]
  · intro p
    simp [GetBannedIPs, List.mem_filter]

/-- Witness for C4 at `tW`, identifier `b`, `now = 100` (= the expiry):
`IsBanned` is false, matching the absence of any strictly-later expiry,
and `GetBannedIPs` at 100 has the same membership as the filter. -/
theorem isBanned_getBannedIPs_semantics_witness :
    IsWhitelisted tW "b" = false ∧
    ((IsBanned tW "b" 100 = true ↔
      ∃ e, tW.bannedUntil.lookup "b" = some e ∧ 100 < e) ∧
    (∀ p : Ident × Int,
      p ∈ GetBannedIPs tW 100 ↔ p ∈ tW.bannedUntil ∧ 100 < p.2)) :=
  ⟨by decide, isBanned_getBannedIPs_semantics tW "b" 100 (by decide)⟩

/-! ## C5: whitelist precedence -/

/-- C5: a whitelisted identifier is never reported banned, and
`Record404` always returns `false` for it and leaves the whole tracker
state unchanged — in particular, any number of repeated offense reports
leaves the state fixed. -/
theorem whitelist_precedence (t : Tracker) (ip : Ident)
    (hw : IsWhitelisted t ip = true) :
    (∀ now : Int, IsBanned t ip now = false) ∧
    (∀ now : Int, Record404 t ip now = (t, false)) ∧
    (∀ (now : Int) (n : Nat),
      (fun s => (Record404 s ip now).1)^[n] t = t) := by
  refine ⟨?_, ?_, ?_⟩
  · intro now
    simp [IsBanned, hw]
  · intro now
    simp [Record404, hw]
  · intro now n
    apply Function.iterate_fixed
    simp [Record404, hw]

/-- Witness for C5 at `tW` and the whitelisted identifier `w`:
in particular 1000 repeated reports leave `tW` unchanged. -/
theorem whitelist_precedence_witness :
    IsWhitelisted tW "w" = true ∧
    ((∀ now : Int, IsBanned tW "w" now = false) ∧
    (∀ now : Int, Record404 tW "w" now = (tW, false)) ∧
    (∀ (now : Int) (n : Nat),
      (fun s => (Record404 s "w" now).1)^[n] tW = tW)) :=
  ⟨by decide, whitelist_precedence tW "w" (by decide)⟩

/-! ## C7: Record404 on an already-banned identifier -/

/-- C7: for a non-whitelisted identifier whose ban expiry is strictly
after `now`, `Record404` returns `true` (and, as the early return in the
source shows, changes nothing). -/
theorem record404_already_banned (t : Tracker) (ip : Ident) (now : Int)
    (hw : IsWhitelisted t ip = false) (hb : isBannedRaw t ip now = true) :
    (Record404 t ip now).2 = true ∧ (Record404 t ip now).1 = t := by
  simp [Record404, hw, hb]

/-- Witness for C7 at `tW`, identifier `b`, `now = 50`: `b`'s expiry 100
is strictly after 50, and the call returns `true` leaving `tW` as is. -/
theorem record404_already_banned_witness :
    IsWhitelisted tW "b" = false ∧ isBannedRaw tW "b" 50 = true ∧
    ((Record404 tW "b" 50).2 = true ∧ (Record404 tW "b" 50).1 = tW) :=
  ⟨by decide, by decide, record404_already_banned tW "b" 50 (by decide) (by decide)⟩

/-! ## C8: state after a housekeeping sweep -/

/-- C8: right after `cleanup` at time `now`, every surviving timestamp is
strictly inside the trailing window (so nothing `window` old or older
remains), every surviving counts entry is non-empty (entries whose pruned
window became empty were deleted), and no ban record with expiry before
`now` remains. -/
theorem cleanup_memory_bound (t : Tracker) (now : Int) :
    (∀ p ∈ (cleanup t now).counts, ∀ ts ∈ p.2, now - t.window < ts) ∧
    (∀ p ∈ (cleanup t now).counts, p.2 ≠ []) ∧
    (∀ p ∈ (cleanup t now).bannedUntil, ¬ p.2 < now) := by
  refine ⟨?_, ?_, ?_⟩
  · intro p hp ts hts
    simp only [cleanup, List.mem_filter, List.mem_map] at hp
    obtain ⟨⟨q, hq, rfl⟩, _⟩ := hp
    have hmem := List.mem_filter.mp hts
    simpa using hmem.2
  · intro p hp
    simp only [cleanup, List.mem_filter] at hp
    simpa using hp.2
  · intro p hp
    simp only [cleanup, List.mem_filter] at hp
    simpa using hp.2

/-! ## C9: IsBanned has no side effects -/

/-- C9: `IsBanned` only reads; as a state transformer it returns the
state unchanged in every component (offense windows, ban expiries,
whitelist, tally), and any number of repeated calls leaves the tracker
fixed. -/
theorem isBanned_side_effect_free (t : Tracker) (ip : Ident) (now : Int) (n : Nat) :
    (IsBannedCall t ip now).1.counts = t.counts ∧
    (IsBannedCall t ip now).1.bannedUntil = t.bannedUntil ∧
    (IsBannedCall t ip now).1.whitelist = t.whitelist ∧
    (IsBannedCall t ip now).1.bannedRequest = t.bannedRequest ∧
    (fun s => (IsBannedCall s ip now).1)^[n] t = t :=
  ⟨rfl, rfl, rfl, rfl, Function.iterate_fixed rfl n⟩

/-! ## C10: ExtendBan is unconditional for non-whitelisted identifiers -/

/-- C10: for a non-whitelisted identifier, `ExtendBan` writes the expiry
`now + banDuration` with no check that a ban record exists or is still
active, so it also creates a fresh full-length ban for an identifier that
was not banned at all (and leaves it banned whenever the configured ban
duration is positive). -/
theorem extendBan_unconditional (t : Tracker) (ip : Ident) (now : Int)
    (hw : IsWhitelisted t ip = false) :
    (ExtendBan t ip now).bannedUntil.lookup ip = some (now + t.banDuration) ∧
    (0 < t.banDuration → IsBanned (ExtendBan t ip now) ip now = true) := by
  constructor
  · simp [ExtendBan, hw, lookup_mapInsert_self]
  · intro hpos
    have hw' : IsWhitelisted
        { t with bannedUntil := mapInsert ip (now + t.banDuration) t.bannedUntil }
        ip = false := hw
    simp only [ExtendBan, hw, Bool.false_eq_true, if_false, IsBanned, hw',
      isBannedRaw, lookup_mapInsert_self]
    simp only [decide_eq_true_eq]
    omega

/-- Witness for C10 at `tW`, identifier `a` (which has no ban record at
all), `now = 0`: `ExtendBan` creates the record with expiry 50 and `a` is
banned afterwards. -/
theorem extendBan_unconditional_witness :
    IsWhitelisted tW "a" = false ∧ tW.bannedUntil.lookup "a" = none ∧
    ((ExtendBan tW "a" 0).bannedUntil.lookup "a" = some (0 + tW.banDuration) ∧
    (0 < tW.banDuration → IsBanned (ExtendBan tW "a" 0) "a" 0 = true)) :=
  ⟨by decide, by decide, extendBan_unconditional tW "a" 0 (by decide)⟩

/-! ## C6: the constructor does not validate its configuration -/

/-- C6 (counterexample): `NewIP404Tracker` performs no validation at all;
called with the non-positive values `threshold = 0`, `window = -1`,
`banDuration = -2` it still constructs a tracker carrying exactly those
values, refuting the claim that a tracker is never constructed with a
non-positive threshold, window, or ban duration. -/
theorem newIP404Tracker_accepts_nonpositive :
    (NewIP404Tracker 0 (-1) (-2)).threshold = 0 ∧
    (NewIP404Tracker 0 (-1) (-2)).window = -1 ∧
    (NewIP404Tracker 0 (-1) (-2)).banDuration = -2 ∧
    ¬ 0 < (NewIP404Tracker 0 (-1) (-2)).threshold :=
  ⟨rfl, rfl, rfl, by decide⟩

/-- C6 (amended): construction takes exactly the three configuration
values — threshold, window, banDuration — and stores them as given,
with empty initial maps and the hardcoded whitelist seed; it performs no
positivity validation. -/
theorem newIP404Tracker_stores_config (th w bd : Int) :
    (NewIP404Tracker th w bd).threshold = th ∧
    (NewIP404Tracker th w bd).window = w ∧
    (NewIP404Tracker th w bd).banDuration = bd ∧
    (NewIP404Tracker th w bd).counts = [] ∧
    (NewIP404Tracker th w bd).bannedUntil = [] ∧
    (NewIP404Tracker th w bd).bannedRequest = [] ∧
    (NewIP404Tracker th w bd).whitelist = hardcodedWhitelist :=
  ⟨rfl, rfl, rfl, rfl, rfl, rfl, rfl⟩
